import Mathlib

/-!
Verification development for the Grahmin-Sahayak loan bot.

We shallowly embed the decision pipeline of `src/services/loan_service.py`,
the EMI endpoint of `src/api/routes/loan.py`, and the 11-step loan
conversation of `src/bots/telegram_bot.py`.

Conventions of the embedding:
* Python text is `List Char` (named `Str` here); `str s` is the character
  list of a Lean string literal.
* Python numbers are exact rationals (`ℚ`) or integers (`ℤ`).  Every value
  that reaches the arithmetic below is produced by `int(...)` or
  `float(...)` on user text, so the float values are exact and the
  rational semantics coincides with the source on all inputs considered.
* Python `round` is round-half-to-even (`pyRound`); `round(x, 2)` is
  `roundTo2`.
* The pickled scikit-learn classifier is an opaque external collaborator;
  it is modelled as a record of functions (`Classifier`), and a call that
  raises is modelled by `Except.error`.
-/

namespace Grahmin

/-- Python text, embedded as a list of characters. -/
abbrev Str := List Char

/-- The character list of a Lean string literal. -/
def str (s : String) : Str := s.data

/-- Test whether `pat` is a prefix of `l` (char-by-char). -/
def startsList : Str → Str → Bool
  | _, [] => true
  | [], _ :: _ => false
  | c :: cs, p :: ps => c == p && startsList cs ps

/-- Python's substring test `pat in l`. -/
def containsSub (pat : Str) : Str → Bool
  | [] => startsList [] pat
  | c :: cs => startsList (c :: cs) pat || containsSub pat cs

/-- Python's `str.lower()` (ASCII case folding suffices for the
synonym matching done by the source). -/
def lowerStr (l : Str) : Str := l.map Char.toLower

/-- Python's built-in `round` on an exact rational: round half to even.
(`Rat.floor` is used rather than `⌊·⌋` so the definition evaluates by
kernel reduction; they agree by `Rat.floor_def`.) -/
def pyRound (q : ℚ) : ℤ :=
  let f := q.floor
  let frac := q - (f : ℚ)
  if frac < 1/2 then f
  else if 1/2 < frac then f + 1
  else if f % 2 = 0 then f else f + 1

/-- Python's `round(x, 2)` on an exact rational. -/
def roundTo2 (q : ℚ) : ℚ := (pyRound (q * 100) : ℚ) / 100

/-!
## The loan service (`src/services/loan_service.py`)
-/

/-- The `user_data` dict handed to `LoanService.predict_eligibility`.
Both call sites (the Telegram form and the FastAPI route) populate the
keys with Python `int`/`float`/`str` values; a missing key is `none` and
the `dict.get` defaults of the source are applied via `getD` below.
`loan_term` and `cibil_score` are integers at both boundaries, so they
are embedded as `ℤ` (the `float(...)` conversions in the source are
exact on them). -/
structure UserData where
  no_of_dependents : Option ℤ := none
  education : Option Str := none
  self_employed : Option Str := none
  income_annum : Option ℚ := none
  loan_amount : Option ℚ := none
  loan_term : Option ℤ := none
  cibil_score : Option ℤ := none
  residential_assets_value : Option ℚ := none
  commercial_assets_value : Option ℚ := none
  luxury_assets_value : Option ℚ := none
  bank_asset_value : Option ℚ := none
deriving DecidableEq

/-- The ordered 11-feature row built by `LoanService._prepare_features`
(the source reorders the dict by the model's `feature_names_in_`; the
named record captures exactly the name-to-value assignment). -/
structure FeatureRow where
  no_of_dependents : ℤ
  education : ℤ
  self_employed : ℤ
  income_annum : ℚ
  loan_amount : ℚ
  loan_term : ℚ
  cibil_score : ℚ
  residential_assets_value : ℚ
  commercial_assets_value : ℚ
  luxury_assets_value : ℚ
  bank_asset_value : ℚ
deriving DecidableEq

/-- Embeds `LoanService._prepare_features` (loan_service.py lines 69–105). -/
def prepare_features (u : UserData) : FeatureRow :=
  let dependents := u.no_of_dependents.getD 0
  let education_raw := lowerStr (u.education.getD (str "Graduate"))
  let education : ℤ := if containsSub (str "graduate") education_raw then 1 else 0
  let self_employed_raw := lowerStr (u.self_employed.getD (str "No"))
  let self_employed : ℤ := if containsSub (str "yes") self_employed_raw then 1 else 0
  let loan_term_input : ℚ := (u.loan_term.getD 12 : ℤ)
  let loan_term_years : ℚ :=
    if 20 < loan_term_input then (pyRound (loan_term_input / 12) : ℚ) else loan_term_input
  let loan_term_clamped := max 2 (min 20 loan_term_years)
  { no_of_dependents := dependents
    education := education
    self_employed := self_employed
    income_annum := u.income_annum.getD 0
    loan_amount := u.loan_amount.getD 0
    loan_term := loan_term_clamped
    cibil_score := ((u.cibil_score.getD 650 : ℤ) : ℚ)
    residential_assets_value := u.residential_assets_value.getD 0
    commercial_assets_value := u.commercial_assets_value.getD 0
    luxury_assets_value := u.luxury_assets_value.getD 0
    bank_asset_value := u.bank_asset_value.getD 0 }

/-- The EMI expression of `_calculate_loan_details` (loan_service.py
lines 128–133): `emi = recommended * r * (1+r)**n / ((1+r)**n - 1) if
r > 0 else recommended / n`, under the guard
`recommended > 0 and tenure_months > 0`, else `emi = 0`. -/
def serviceEmi (recommended interest_rate : ℚ) (tenure_months : ℤ) : ℚ :=
  if 0 < recommended ∧ 0 < tenure_months then
    let r := interest_rate / (12 * 100)
    let n := tenure_months.toNat
    if 0 < r then recommended * r * (1 + r) ^ n / ((1 + r) ^ n - 1)
    else recommended / (tenure_months : ℚ)
  else 0

/-- The fields returned by `LoanService._calculate_loan_details`
(loan_service.py lines 107–140). -/
structure LoanDetails where
  recommended_amount : ℚ
  emi : ℚ
  interest_rate : ℚ
  tenure_months : ℤ
deriving DecidableEq

/-- Embeds `LoanService._calculate_loan_details` (loan_service.py lines 107–140). -/
def calculate_loan_details (u : UserData) (eligible : Bool) : LoanDetails :=
  let requested := u.loan_amount.getD 0
  let income_annum := u.income_annum.getD 0
  let cibil := u.cibil_score.getD 650
  let interest_rate : ℚ := if 750 ≤ cibil then 17/2 else if 700 ≤ cibil then 10 else 12
  let max_eligible := income_annum * 5
  let recommended := if eligible then min requested max_eligible else 0
  let tenure_raw := u.loan_term.getD 12
  let tenure_months := if tenure_raw ≤ 20 then tenure_raw * 12 else tenure_raw
  let emi := serviceEmi recommended interest_rate tenure_months
  { recommended_amount := roundTo2 recommended
    emi := roundTo2 emi
    interest_rate := interest_rate
    tenure_months := tenure_months }

/-- Rendering of a number spliced into a message f-string.  The source
formats with `:,.0f` (digit grouping); the claims never depend on the
digits' rendering, only on the surrounding template text, so the
rendering is abstracted to `toString`. -/
def renderQ (q : ℚ) : Str := (toString q).data

/-- Rendering of an integer spliced into a message f-string. -/
def renderZ (z : ℤ) : Str := (toString z).data

/-- The pair of localized result messages. -/
structure Messages where
  hindi : Str
  english : Str

/-- Embeds `LoanService._generate_messages` (loan_service.py lines 142–178). -/
def generate_messages (eligible : Bool) (recommended_amount emi interest_rate : ℚ)
    (tenure_months : ℤ) : Messages :=
  if eligible then
    { hindi :=
        str "✅ बधाई हो! आप लोन के लिए पात्र हैं\n\n💰 अनुमोदित राशि: ₹" ++ renderQ recommended_amount ++
        str "\n📅 मासिक EMI: ₹" ++ renderQ emi ++
        str "\n📊 ब्याज दर: " ++ renderQ interest_rate ++ str "% प्रति वर्ष\n⏱ अवधि: " ++
        renderZ tenure_months ++
        str " महीने\n\n💡 अगले कदम:\n1. नज़दीकी बैंक शाखा में जाएं\n2. आवश्यक दस्तावेज़ ले जाएं"
      english :=
        str "✅ Congratulations! You are eligible\n\n💰 Approved: ₹" ++ renderQ recommended_amount ++
        str "\n📅 EMI: ₹" ++ renderQ emi ++
        str "\n📊 Rate: " ++ renderQ interest_rate ++ str "%\n⏱ Tenure: " ++
        renderZ tenure_months ++ str " months" }
  else
    { hindi :=
        str "❌ आप वर्तमान में लोन के लिए पात्र नहीं हैं\n\n📌 सुझाव:\n• अपना CIBIL स्कोर 700+ तक बढ़ाएं\n• संपत्ति का मूल्य बढ़ाएं\n• छोटी राशि का लोन लें"
      english :=
        str "❌ Not currently eligible\n\n• Improve CIBIL to 700+\n• Increase collateral\n• Request smaller amount" }

/-- The result dict of `LoanService.predict_eligibility`. -/
structure Result where
  eligible : Bool
  confidence : ℚ
  recommended_amount : ℚ
  emi : ℚ
  interest_rate : ℚ
  tenure_months : ℤ
  message_hindi : Str
  message_english : Str
deriving DecidableEq

/-- Embeds `LoanService._error_response` (loan_service.py lines 180–190). -/
def error_response (message : Str) : Result :=
  { eligible := false
    confidence := 0
    recommended_amount := 0
    emi := 0
    interest_rate := 0
    tenure_months := 0
    message_hindi := str "❌ त्रुटि: " ++ message
    message_english := str "❌ Error: " ++ message }

/-- The localized message returned when the pickled model is not loaded
(loan_service.py line 31). -/
def errLoadMsg : Str := str "मॉडल लोड नहीं हो पाया"

/-- The localized message returned when the inference raises
(loan_service.py line 67). -/
def errInternalMsg : Str := str "आंतरिक त्रुटि"

/-- The pickled scikit-learn classifier, consumed as an opaque external
capability: `predict` and `predict_proba` on the 11-feature row, each of
which may raise (modelled by `Except.error`). -/
structure Classifier where
  predict : FeatureRow → Except Str ℤ
  predict_proba : FeatureRow → Except Str (ℚ × ℚ)

/-- Embeds `LoanService.predict_eligibility` (loan_service.py lines 29–67).
`model = none` is the un-loaded state (`self.model is None`); a raising
inference lands in the `except` branch returning the internal-error
response. -/
def predict_eligibility (model : Option Classifier) (u : UserData) : Result :=
  match model with
  | none => error_response errLoadMsg
  | some m =>
    let features := prepare_features u
    match m.predict features, m.predict_proba features with
    | Except.ok prediction, Except.ok probability =>
      let eligible := prediction = 1
      let confidence := max probability.1 probability.2
      let loan_details := calculate_loan_details u eligible
      let messages := generate_messages eligible loan_details.recommended_amount
        loan_details.emi loan_details.interest_rate loan_details.tenure_months
      { eligible := eligible
        confidence := roundTo2 confidence
        recommended_amount := loan_details.recommended_amount
        emi := loan_details.emi
        interest_rate := loan_details.interest_rate
        tenure_months := loan_details.tenure_months
        message_hindi := messages.hindi
        message_english := messages.english }
    | _, _ => error_response errInternalMsg

/-!
## The API boundary (`src/api/routes/loan.py`)
-/

/-- The validated body of `POST /loan/check-eligibility`
(`LoanRequest`, loan.py lines 18–53): all 11 fields present, with the
pydantic bounds as stated there.  `request.dict()` is then handed to
`predict_eligibility` unchanged. -/
def apiUserData (no_of_dependents : ℤ) (education self_employed : Str)
    (income_annum loan_amount : ℚ) (loan_term cibil_score : ℤ)
    (residential commercial luxury bank : ℚ) : UserData :=
  { no_of_dependents := some no_of_dependents
    education := some education
    self_employed := some self_employed
    income_annum := some income_annum
    loan_amount := some loan_amount
    loan_term := some loan_term
    cibil_score := some cibil_score
    residential_assets_value := some residential
    commercial_assets_value := some commercial
    luxury_assets_value := some luxury
    bank_asset_value := some bank }

/-- The JSON returned by `GET /loan/emi-calculator`. -/
structure EmiResponse where
  loan_amount : ℚ
  interest_rate : ℚ
  tenure_months : ℤ
  monthly_emi : ℚ
  total_payment : ℚ
  total_interest : ℚ
deriving DecidableEq

/-- Embeds `calculate_emi` (loan.py lines 265–301).  The two trailing
percentage fields of the JSON are omitted (pure display ratios, used by
no claim). -/
def calculate_emi (loan_amount interest_rate : ℚ) (tenure_months : ℤ) : EmiResponse :=
  let r := interest_rate / (12 * 100)
  let n := tenure_months.toNat
  let emi :=
    if 0 < r then loan_amount * r * (1 + r) ^ n / ((1 + r) ^ n - 1)
    else loan_amount / (tenure_months : ℚ)
  let total_payment := emi * (tenure_months : ℚ)
  let total_interest := total_payment - loan_amount
  { loan_amount := roundTo2 loan_amount
    interest_rate := interest_rate
    tenure_months := tenure_months
    monthly_emi := roundTo2 emi
    total_payment := roundTo2 total_payment
    total_interest := roundTo2 total_interest }

/-!
## The Telegram loan conversation (`src/bots/telegram_bot.py`)

Each per-step handler parses the message text with Python `int(...)` or
`float(text.replace(",", ""))`.  The parsers below cover the decimal
forms those builtins accept (optional sign, digits, optional fractional
part); Python additionally accepts surrounding whitespace, underscores
and exponent/`inf`/`nan` forms, which no claim exercises — every string
the embedded parsers accept is parsed to the same value by Python.
-/

/-- Numeric value of a digit string. -/
def valDigits (l : Str) : ℕ := l.foldl (fun a c => a * 10 + (c.toNat - 48)) 0

/-- Holds when `l` is nonempty and all digits. -/
def allDigits (l : Str) : Bool := !l.isEmpty && l.all Char.isDigit

/-- Python `int(text)` on the digit forms used by the bot. -/
def parseInt (l : Str) : Option ℤ :=
  match l with
  | '-' :: rest => if allDigits rest then some (-(valDigits rest : ℤ)) else none
  | '+' :: rest => if allDigits rest then some ((valDigits rest : ℤ)) else none
  | _ => if allDigits l then some ((valDigits l : ℤ)) else none

/-- Unsigned decimal: `digits`, `digits.digits`, `digits.` or `.digits`. -/
def parseFloatCore (l : Str) : Option ℚ :=
  let ip := l.takeWhile Char.isDigit
  let rest := l.dropWhile Char.isDigit
  match rest with
  | [] => if ip.isEmpty then none else some ((valDigits ip : ℚ))
  | '.' :: fp =>
    if fp.all Char.isDigit && !(ip.isEmpty && fp.isEmpty) then
      some ((valDigits ip : ℚ) + (valDigits fp : ℚ) / 10 ^ fp.length)
    else none
  | _ => none

/-- Python `float(text)` on the decimal forms used by the bot. -/
def parseFloat (l : Str) : Option ℚ :=
  match l with
  | '-' :: rest => (parseFloatCore rest).map (fun q => -q)
  | '+' :: rest => parseFloatCore rest
  | _ => parseFloatCore l

/-- Python `float(text.replace(",", ""))`, as done by every amount
handler of the bot. -/
def parseAmount (l : Str) : Option ℚ := parseFloat (l.filter (fun c => c != ','))

/-- The states of the loan `ConversationHandler` (telegram_bot.py,
`loan_conv`, lines 1063–1079), plus the `Idle` state outside the
conversation (`ConversationHandler.END`). -/
inductive ConvState where
  | idle
  | eduSt
  | empSt
  | depSt
  | incSt
  | amtSt
  | termSt
  | creditSt
  | resSt
  | comSt
  | luxSt
  | bankSt
deriving DecidableEq

/-- A user's conversation session: the active state and
`context.user_data['loan_data']` (absent = `none`). -/
structure Session where
  state : ConvState
  loan_data : Option UserData
deriving DecidableEq

/-- The session of a user with no active conversation. -/
def idleSession : Session := { state := ConvState.idle, loan_data := none }

/-- Embeds `loan_command` (telegram_bot.py lines 476–516): `/loan` clears
`loan_data` to an empty dict and enters the education step.  Starting a
new form silently supersedes any active one. -/
def loan_command (_s : Session) : Session :=
  { state := ConvState.eduSt, loan_data := some {} }

/-- One message handled by the loan conversation: the per-state handlers
`loan_education` … `loan_bank` (telegram_bot.py lines 519–775).  A parse
or bounds failure re-prompts and stays in the same state with
`loan_data` unchanged; the final `loan_bank` handler runs
`predict_eligibility`, emits its result, pops `loan_data` and returns
`ConversationHandler.END`.  In states without a matching handler
(`idle`, or a session whose `loan_data` dict is missing) the message is
not handled by the conversation and nothing changes. -/
def step (model : Option Classifier) (s : Session) (input : Str) : Session × Option Result :=
  match s.state, s.loan_data with
  | ConvState.eduSt, some d =>
    ({ state := ConvState.empSt, loan_data := some { d with education := some input } }, none)
  | ConvState.empSt, some d =>
    ({ state := ConvState.depSt, loan_data := some { d with self_employed := some input } }, none)
  | ConvState.depSt, some d =>
    (match parseInt input with
     | some dependents =>
       ({ state := ConvState.incSt,
          loan_data := some { d with no_of_dependents := some dependents } }, none)
     | none => ({ state := ConvState.depSt, loan_data := some d }, none))
  | ConvState.incSt, some d =>
    (match parseAmount input with
     | some income =>
       ({ state := ConvState.amtSt, loan_data := some { d with income_annum := some income } }, none)
     | none => ({ state := ConvState.incSt, loan_data := some d }, none))
  | ConvState.amtSt, some d =>
    (match parseAmount input with
     | some amount =>
       ({ state := ConvState.termSt, loan_data := some { d with loan_amount := some amount } }, none)
     | none => ({ state := ConvState.amtSt, loan_data := some d }, none))
  | ConvState.termSt, some d =>
    (match parseInt input with
     | some term =>
       if term < 1 ∨ 30 < term then ({ state := ConvState.termSt, loan_data := some d }, none)
       else
         ({ state := ConvState.creditSt,
            loan_data := some { d with loan_term := some (term * 12) } }, none)
     | none => ({ state := ConvState.termSt, loan_data := some d }, none))
  | ConvState.creditSt, some d =>
    (match parseInt input with
     | some credit =>
       if credit < 300 ∨ 900 < credit then
         ({ state := ConvState.creditSt, loan_data := some d }, none)
       else
         ({ state := ConvState.resSt,
            loan_data := some { d with cibil_score := some credit } }, none)
     | none => ({ state := ConvState.creditSt, loan_data := some d }, none))
  | ConvState.resSt, some d =>
    (match parseAmount input with
     | some v =>
       ({ state := ConvState.comSt,
          loan_data := some { d with residential_assets_value := some v } }, none)
     | none => ({ state := ConvState.resSt, loan_data := some d }, none))
  | ConvState.comSt, some d =>
    (match parseAmount input with
     | some v =>
       ({ state := ConvState.luxSt,
          loan_data := some { d with commercial_assets_value := some v } }, none)
     | none => ({ state := ConvState.comSt, loan_data := some d }, none))
  | ConvState.luxSt, some d =>
    (match parseAmount input with
     | some v =>
       ({ state := ConvState.bankSt,
          loan_data := some { d with luxury_assets_value := some v } }, none)
     | none => ({ state := ConvState.luxSt, loan_data := some d }, none))
  | ConvState.bankSt, some d =>
    (match parseAmount input with
     | some v =>
       let d' := { d with bank_asset_value := some v }
       (idleSession, some (predict_eligibility model d'))
     | none => ({ state := ConvState.bankSt, loan_data := some d }, none))
  | st, dd => ({ state := st, loan_data := dd }, none)

/-- Handle a list of messages in order, collecting every emitted
result. -/
def runSteps (model : Option Classifier) : Session → List Str → Session × List Result
  | s, [] => (s, [])
  | s, input :: rest =>
    let out := step model s input
    let tail := runSteps model out.1 rest
    (tail.1, out.2.toList ++ tail.2)

/-!
## Concrete fixtures (used by closed theorems and witnesses)
-/

/-- A complete loan-form submission as stored by the Telegram handlers
(spec §8 Scenario A shape), parameterized by the tenure entered in
years: `loan_term` holds `term_years * 12` exactly as `loan_term`
(telegram_bot.py line 627) stores it. -/
def sampleBotData (term_years : ℤ) : UserData :=
  { no_of_dependents := some 1
    education := some (str "Graduate")
    self_employed := some (str "No")
    income_annum := some 1200000
    loan_amount := some 3000000
    loan_term := some (term_years * 12)
    cibil_score := some 780
    residential_assets_value := some 5000000
    commercial_assets_value := some 2000000
    luxury_assets_value := some 2800000
    bank_asset_value := some 1000000 }

/-- A submission fragment carrying only the two enum answers, used to
probe the free-text mapping. -/
def enumProbeData : UserData :=
  { education := some (str "Not Graduate")
    self_employed := some (str "YES") }

/-- A loaded classifier that always answers "eligible" with
probabilities (0.1, 0.9); used to instantiate theorems that quantify
over the opaque model. -/
def okClassifier : Classifier :=
  { predict := fun _ => Except.ok 1
    predict_proba := fun _ => Except.ok (1/10, 9/10) }

/-- A loaded classifier whose inference call raises. -/
def raisingClassifier : Classifier :=
  { predict := fun _ => Except.error (str "inference failed")
    predict_proba := fun _ => Except.error (str "inference failed") }

/-!
## Helper lemmas
-/

theorem rat_floor_eq_intFloor (q : ℚ) : q.floor = ⌊q⌋ :=
  (Rat.floor_def' q).trans Rat.floor_def.symm

theorem pyRound_intCast (n : ℤ) : pyRound (n : ℚ) = n := by
  unfold pyRound
  rw [rat_floor_eq_intFloor, Int.floor_intCast]
  norm_num

theorem roundTo2_intDiv100 (m : ℤ) : roundTo2 ((m : ℚ) / 100) = (m : ℚ) / 100 := by
  unfold roundTo2
  have h : ((m : ℚ) / 100) * 100 = (m : ℚ) := by ring
  rw [h, pyRound_intCast]

theorem roundTo2_zero : roundTo2 0 = 0 := by
  have := roundTo2_intDiv100 0
  norm_num at this
  exact this

theorem min_intDiv100 (a b : ℤ) :
    min ((a : ℚ) / 100) ((b : ℚ) / 100) = ((min a b : ℤ) : ℚ) / 100 := by
  rcases le_total a b with h | h
  · rw [min_eq_left ((div_le_div_iff_of_pos_right (by norm_num)).mpr (by exact_mod_cast h)),
      min_eq_left h]
  · rw [min_eq_right ((div_le_div_iff_of_pos_right (by norm_num)).mpr (by exact_mod_cast h)),
      min_eq_right h]

theorem serviceEmi_zero (r : ℚ) (t : ℤ) : serviceEmi 0 r t = 0 := by
  simp [serviceEmi]

/-!
## Claims
-/

/-- C1: the claim says that entering tenure `y ∈ [1,30]` years on the
loan form yields a classifier tenure feature of `clamp(y, 2, 20)`, so
entering 10 gives 10, 25 gives 20 and 1 gives 2.  On the code, this
holds for every `y ∈ [2,30]`, but for `y = 1` the stored 12 months are
mistaken for years by the `> 20` unit heuristic of
`_prepare_features`, so the feature is 12, not the claimed 2: the code
contradicts its own comment ("User inputs months … convert:
months ÷ 12 = years"). -/
theorem c1_model_tenure_feature :
    (∀ (u : UserData) (y : ℤ), u.loan_term = some (y * 12) → 2 ≤ y → y ≤ 30 →
      (prepare_features u).loan_term = max 2 (min 20 (y : ℚ))) ∧
    (prepare_features (sampleBotData 10)).loan_term = 10 ∧
    (prepare_features (sampleBotData 25)).loan_term = 20 ∧
    (prepare_features (sampleBotData 1)).loan_term = 12 ∧ (12 : ℚ) ≠ 2 := by
  have hgen : ∀ (u : UserData) (y : ℤ), u.loan_term = some (y * 12) → 2 ≤ y → y ≤ 30 →
      (prepare_features u).loan_term = max 2 (min 20 (y : ℚ)) := by
    intro u y hlt h2 _h30
    have hz : (20 : ℤ) < y * 12 := by omega
    have hgt : (20 : ℚ) < ((y * 12 : ℤ) : ℚ) := by exact_mod_cast hz
    have hdiv : (((y * 12 : ℤ) : ℚ)) / 12 = (y : ℚ) := by
      push_cast
      ring
    simp only [prepare_features, hlt, Option.getD_some, if_pos hgt, hdiv, pyRound_intCast]
  refine ⟨hgen, ?_, ?_, ?_, by norm_num⟩
  · have := hgen (sampleBotData 10) 10 rfl (by norm_num) (by norm_num)
    rw [this]
    norm_num
  · have := hgen (sampleBotData 25) 25 rfl (by norm_num) (by norm_num)
    rw [this]
    norm_num
  · norm_num [prepare_features, sampleBotData]

/-- C1 witness: the general clause instantiated at `y = 5`. -/
theorem c1_model_tenure_feature_witness :
    (sampleBotData 5).loan_term = some (5 * 12) ∧ (2 : ℤ) ≤ 5 ∧ (5 : ℤ) ≤ 30 ∧
    (prepare_features (sampleBotData 5)).loan_term = max 2 (min 20 ((5 : ℤ) : ℚ)) :=
  ⟨rfl, by norm_num, by norm_num,
    c1_model_tenure_feature.1 (sampleBotData 5) 5 rfl (by norm_num) (by norm_num)⟩

/-- C2: the claim says the months used for EMI and reported as
`tenure_months` equal `y * 12` for every entered `y ∈ [1,30]`.  On the
code this holds for `y ∈ [2,30]` (entering 10 gives 120, 25 gives 300),
but for `y = 1` the stored 12 months fall into the `<= 20` branch of
`_calculate_loan_details` and are multiplied by 12 again:
`tenure_months` is 144, not the claimed 12. -/
theorem c2_tenure_months :
    (∀ (u : UserData) (y : ℤ) (e : Bool), u.loan_term = some (y * 12) → 2 ≤ y → y ≤ 30 →
      (calculate_loan_details u e).tenure_months = y * 12) ∧
    (∀ e : Bool, (calculate_loan_details (sampleBotData 10) e).tenure_months = 120) ∧
    (∀ e : Bool, (calculate_loan_details (sampleBotData 25) e).tenure_months = 300) ∧
    (∀ e : Bool, (calculate_loan_details (sampleBotData 1) e).tenure_months = 144) ∧
    (144 : ℤ) ≠ 12 := by
  have hgen : ∀ (u : UserData) (y : ℤ) (e : Bool), u.loan_term = some (y * 12) →
      2 ≤ y → y ≤ 30 → (calculate_loan_details u e).tenure_months = y * 12 := by
    intro u y e hlt h2 _h30
    have hgt : ¬ (y * 12 ≤ 20) := by omega
    simp only [calculate_loan_details, hlt, Option.getD_some, if_neg hgt]
  refine ⟨hgen, fun e => ?_, fun e => ?_, fun e => ?_, by norm_num⟩
  · rw [hgen (sampleBotData 10) 10 e rfl (by norm_num) (by norm_num)]
    norm_num
  · rw [hgen (sampleBotData 25) 25 e rfl (by norm_num) (by norm_num)]
    norm_num
  · simp [calculate_loan_details, sampleBotData]

/-- C2 witness: the general clause instantiated at `y = 5`. -/
theorem c2_tenure_months_witness :
    (sampleBotData 5).loan_term = some (5 * 12) ∧ (2 : ℤ) ≤ 5 ∧ (5 : ℤ) ≤ 30 ∧
    (calculate_loan_details (sampleBotData 5) true).tenure_months = 5 * 12 :=
  ⟨rfl, by norm_num, by norm_num,
    c2_tenure_months.1 (sampleBotData 5) 5 true rfl (by norm_num) (by norm_num)⟩

/-- C4: for any submission carrying a `cibil_score`, the interest rate
of the result is 8.5% when the score is ≥ 750, 10.0% when it is in
[700, 750), and 12.0% otherwise, for either eligibility outcome. -/
theorem c4_interest_rate_tiers (u : UserData) (e : Bool) (c : ℤ)
    (h : u.cibil_score = some c) :
    (calculate_loan_details u e).interest_rate =
      if 750 ≤ c then 17/2 else if 700 ≤ c then 10 else 12 := by
  simp only [calculate_loan_details, h, Option.getD_some]

/-- C4 witness: a 780 score gets the 8.5% tier. -/
theorem c4_interest_rate_tiers_witness :
    (sampleBotData 10).cibil_score = some 780 ∧
    (calculate_loan_details (sampleBotData 10) true).interest_rate =
      if (750 : ℤ) ≤ 780 then 17/2 else if (700 : ℤ) ≤ 780 then 10 else 12 :=
  ⟨rfl, c4_interest_rate_tiers (sampleBotData 10) true 780 rfl⟩

/-- C10: the stateless endpoint's `loan_term` is documented as months,
but `_prepare_features` and `_calculate_loan_details` treat any value
`0 < v ≤ 20` as years (feature `clamp(v, 2, 20)`, reported months
`v * 12`) and only a value `v > 20` as months (feature
`clamp(round(v/12), 2, 20)` with round-half-to-even, reported months
`v`). -/
theorem c10_api_loan_term_units (dep : ℤ) (edu semp : Str) (inc amt : ℚ)
    (v cibil : ℤ) (r c l b : ℚ) (e : Bool) (hv : 0 < v) :
    (v ≤ 20 →
      (prepare_features (apiUserData dep edu semp inc amt v cibil r c l b)).loan_term =
        max 2 (min 20 (v : ℚ)) ∧
      (calculate_loan_details (apiUserData dep edu semp inc amt v cibil r c l b) e).tenure_months =
        v * 12) ∧
    (20 < v →
      (prepare_features (apiUserData dep edu semp inc amt v cibil r c l b)).loan_term =
        max 2 (min 20 ((pyRound ((v : ℚ) / 12) : ℤ) : ℚ)) ∧
      (calculate_loan_details (apiUserData dep edu semp inc amt v cibil r c l b) e).tenure_months =
        v) := by
  have _hv := hv
  constructor
  · intro hle
    have hq : ¬ ((20 : ℚ) < ((v : ℤ) : ℚ)) :=
      not_lt.mpr (show ((v : ℤ) : ℚ) ≤ 20 by exact_mod_cast hle)
    constructor
    · simp only [prepare_features, apiUserData, Option.getD_some, if_neg hq]
    · simp only [calculate_loan_details, apiUserData, Option.getD_some, if_pos hle]
  · intro hgt
    have hq : (20 : ℚ) < ((v : ℤ) : ℚ) := by exact_mod_cast hgt
    constructor
    · simp only [prepare_features, apiUserData, Option.getD_some, if_pos hq]
    · simp only [calculate_loan_details, apiUserData, Option.getD_some,
        if_neg (not_le.mpr hgt)]

/-- C10 witness: `loan_term = 12` (twelve months) is treated as twelve
years: feature 12 and reported months 144. -/
theorem c10_api_loan_term_units_witness :
    (0 : ℤ) < 12 ∧ (12 : ℤ) ≤ 20 ∧
    (prepare_features (apiUserData 2 (str "Graduate") (str "Yes") 600000 4000000 12 800
        2000000 500000 300000 100000)).loan_term = max 2 (min 20 ((12 : ℤ) : ℚ)) ∧
    (calculate_loan_details (apiUserData 2 (str "Graduate") (str "Yes") 600000 4000000 12 800
        2000000 500000 300000 100000) true).tenure_months = 12 * 12 :=
  ⟨by norm_num, by norm_num,
    ((c10_api_loan_term_units 2 (str "Graduate") (str "Yes") 600000 4000000 12 800
        2000000 500000 300000 100000 true (by norm_num)).1 (by norm_num)).1,
    ((c10_api_loan_term_units 2 (str "Graduate") (str "Yes") 600000 4000000 12 800
        2000000 500000 300000 100000 true (by norm_num)).1 (by norm_num)).2⟩

/-- C5: for every completed submission (amounts in whole paise, i.e.
exactly representable at the 2-decimal rounding the service applies),
`recommended_amount` is `min(requested, income * 5)` when eligible and
0 when not; and a zero recommended amount always comes with a zero
EMI. -/
theorem c5_recommended_amount (u : UserData) (req inc : ℚ)
    (hreq : u.loan_amount = some req) (hinc : u.income_annum = some inc)
    (ha : ∃ a : ℤ, req = (a : ℚ) / 100) (hb : ∃ b : ℤ, inc = (b : ℚ) / 100) :
    (calculate_loan_details u true).recommended_amount = min req (inc * 5) ∧
    (calculate_loan_details u false).recommended_amount = 0 ∧
    (∀ e : Bool, (calculate_loan_details u e).recommended_amount = 0 →
      (calculate_loan_details u e).emi = 0) := by
  obtain ⟨a, rfl⟩ := ha
  obtain ⟨b, rfl⟩ := hb
  have hmul : ((b : ℚ) / 100) * 5 = ((b * 5 : ℤ) : ℚ) / 100 := by
    push_cast
    ring
  have key : min ((a : ℚ) / 100) (((b : ℚ) / 100) * 5) = ((min a (b * 5) : ℤ) : ℚ) / 100 := by
    rw [hmul, min_intDiv100]
  have h1 : (calculate_loan_details u true).recommended_amount
      = roundTo2 (min ((a : ℚ) / 100) (((b : ℚ) / 100) * 5)) := by
    simp only [calculate_loan_details, hreq, hinc, Option.getD_some, if_true]
  have hrec : (calculate_loan_details u true).recommended_amount
      = min ((a : ℚ) / 100) (((b : ℚ) / 100) * 5) := by
    rw [h1, key, roundTo2_intDiv100, ← key]
  refine ⟨hrec, ?_, ?_⟩
  · simp [calculate_loan_details, roundTo2_zero]
  · intro e h
    cases e
    · simp [calculate_loan_details, serviceEmi_zero, roundTo2_zero]
    · have hmin : min ((a : ℚ) / 100) (((b : ℚ) / 100) * 5) = 0 := hrec.symm.trans h
      simp only [calculate_loan_details, hreq, hinc, Option.getD_some, if_true, hmin,
        serviceEmi_zero, roundTo2_zero]

/-- C5 witness: Scenario-A amounts, eligible case. -/
theorem c5_recommended_amount_witness :
    (sampleBotData 10).loan_amount = some 3000000 ∧
    (sampleBotData 10).income_annum = some 1200000 ∧
    (calculate_loan_details (sampleBotData 10) true).recommended_amount
      = min 3000000 (1200000 * 5) :=
  ⟨rfl, rfl,
    (c5_recommended_amount (sampleBotData 10) 3000000 1200000 rfl rfl
      ⟨300000000, by norm_num⟩ ⟨120000000, by norm_num⟩).1⟩

/-- C6: the EMI computed by the service for a positive recommended
amount `P` over `n > 0` months with monthly rate `r = rate/1200` is
`P·r·(1+r)^n / ((1+r)^n − 1)` when `r > 0` and `P/n` when `r = 0`; the
standalone `/loan/emi-calculator` endpoint computes its `monthly_emi`
as the 2-decimal rounding of the same formula on its inputs, and the
service's reported `emi` field is the 2-decimal rounding of
`serviceEmi` applied to its recommended amount, tier rate and tenure. -/
theorem c6_emi_formula (P rate : ℚ) (n : ℤ) (hP : 0 < P) (hn : 0 < n) :
    (0 < rate / (12 * 100) →
      serviceEmi P rate n =
        P * (rate / (12 * 100)) * (1 + rate / (12 * 100)) ^ n.toNat /
          ((1 + rate / (12 * 100)) ^ n.toNat - 1)) ∧
    (rate / (12 * 100) = 0 → serviceEmi P rate n = P / (n : ℚ)) ∧
    (calculate_emi P rate n).monthly_emi = roundTo2 (serviceEmi P rate n) ∧
    (∀ (u : UserData) (e : Bool),
      (calculate_loan_details u e).emi =
        roundTo2 (serviceEmi
          (if e then min (u.loan_amount.getD 0) (u.income_annum.getD 0 * 5) else 0)
          (if 750 ≤ u.cibil_score.getD 650 then 17/2
            else if 700 ≤ u.cibil_score.getD 650 then 10 else 12)
          (calculate_loan_details u e).tenure_months)) := by
  refine ⟨?_, ?_, ?_, ?_⟩
  · intro hr
    unfold serviceEmi
    rw [if_pos ⟨hP, hn⟩, if_pos hr]
  · intro hr
    unfold serviceEmi
    rw [if_pos ⟨hP, hn⟩, if_neg (by rw [hr]; exact lt_irrefl 0)]
  · by_cases hr : 0 < rate / (12 * 100)
    · simp only [calculate_emi, serviceEmi, if_pos hr,
        if_pos (⟨hP, hn⟩ : (0 : ℚ) < P ∧ 0 < n)]
    · simp only [calculate_emi, serviceEmi, if_neg hr,
        if_pos (⟨hP, hn⟩ : (0 : ℚ) < P ∧ 0 < n)]
  · intro u e
    rfl

/-- C6 witness: a 100000-rupee amount at the 8.5% tier over 120
months. -/
theorem c6_emi_formula_witness :
    (0 : ℚ) < 100000 ∧ (0 : ℤ) < 120 ∧
    (calculate_emi 100000 (17/2) 120).monthly_emi = roundTo2 (serviceEmi 100000 (17/2) 120) :=
  ⟨by norm_num, by norm_num, (c6_emi_formula 100000 (17/2) 120 (by norm_num) (by norm_num)).2.2.1⟩

/-- C8: the education feature is 1 exactly when the lowercased free
text contains "graduate" and 0 otherwise, and the self-employment
feature is 1 exactly when the lowercased text contains "yes" and 0
otherwise; no input produces any other value. -/
theorem c8_two_bucket_enums (u : UserData) (s t : Str)
    (hs : u.education = some s) (ht : u.self_employed = some t) :
    ((prepare_features u).education = 1 ∨ (prepare_features u).education = 0) ∧
    ((prepare_features u).education = 1 ↔ containsSub (str "graduate") (lowerStr s) = true) ∧
    ((prepare_features u).self_employed = 1 ∨ (prepare_features u).self_employed = 0) ∧
    ((prepare_features u).self_employed = 1 ↔ containsSub (str "yes") (lowerStr t) = true) := by
  by_cases hg : containsSub (str "graduate") (lowerStr s) = true <;>
    by_cases hy : containsSub (str "yes") (lowerStr t) = true <;>
      simp [prepare_features, hs, ht, hg, hy]

/-- C8 witness: "Not Graduate" still contains "graduate" after
lowercasing, so the education feature is 1 (the lenient
substring-match), and "YES" maps to 1. -/
theorem c8_two_bucket_enums_witness :
    enumProbeData.education = some (str "Not Graduate") ∧
    ((prepare_features enumProbeData).education = 1 ↔
      containsSub (str "graduate") (lowerStr (str "Not Graduate")) = true) :=
  ⟨rfl,
    (c8_two_bucket_enums enumProbeData (str "Not Graduate") (str "YES") rfl rfl).2.1⟩

/-- C3: with no model loaded, `predict_eligibility` returns the
localized load-error response without consulting the classifier; a
raising inference returns the localized internal-error response; and an
error response's message is distinct from both the approved and the
rejected decision messages, for any numbers spliced into them — the
failure is surfaced as an error, not replaced by a decision message. -/
theorem c3_classifier_unavailable_fatal (u : UserData) :
    predict_eligibility none u = error_response errLoadMsg ∧
    (∀ (c : Classifier) (e : Str),
      c.predict (prepare_features u) = Except.error e →
      predict_eligibility (some c) u = error_response errInternalMsg) ∧
    (∀ (msg : Str) (ra emi ir : ℚ) (tm : ℤ),
      (error_response msg).message_english ≠ (generate_messages true ra emi ir tm).english ∧
      (error_response msg).message_english ≠ (generate_messages false ra emi ir tm).english) := by
  refine ⟨rfl, ?_, ?_⟩
  · intro c e h
    cases hp : c.predict_proba (prepare_features u) <;>
      simp [predict_eligibility, h, hp]
  · intro msg ra emi ir tm
    constructor
    · intro h
      have h1 : (error_response msg).message_english[2]? = some 'E' := rfl
      rw [h] at h1
      have h2 : (generate_messages true ra emi ir tm).english[2]? = some 'C' := rfl
      rw [h2] at h1
      exact absurd h1 (by decide)
    · intro h
      have h1 : (error_response msg).message_english[2]? = some 'E' := rfl
      rw [h] at h1
      have h2 : (generate_messages false ra emi ir tm).english[2]? = some 'N' := rfl
      rw [h2] at h1
      exact absurd h1 (by decide)

/-- C3 witness: a raising inference on a concrete submission yields the
internal-error response. -/
theorem c3_classifier_unavailable_fatal_witness :
    raisingClassifier.predict (prepare_features (sampleBotData 10)) =
      Except.error (str "inference failed") ∧
    predict_eligibility (some raisingClassifier) (sampleBotData 10) =
      error_response errInternalMsg :=
  ⟨rfl,
    (c3_classifier_unavailable_fatal (sampleBotData 10)).2.1 raisingClassifier
      (str "inference failed") rfl⟩

/-- C7: tenure input "0" or "31" and credit input "299" or "901" are
rejected: the conversation stays in the same field-state and the
collected fields are unchanged; a tenure answer is committed exactly
when it parses to an integer in [1,30] (stored as months ×12) and a
credit answer exactly when it parses to an integer in [300,900];
unparseable text is likewise rejected without a commit. -/
theorem c7_boundary_validation :
    (∀ (m : Option Classifier) (d : UserData),
      step m { state := ConvState.termSt, loan_data := some d } (str "0") =
        ({ state := ConvState.termSt, loan_data := some d }, none) ∧
      step m { state := ConvState.termSt, loan_data := some d } (str "31") =
        ({ state := ConvState.termSt, loan_data := some d }, none) ∧
      step m { state := ConvState.creditSt, loan_data := some d } (str "299") =
        ({ state := ConvState.creditSt, loan_data := some d }, none) ∧
      step m { state := ConvState.creditSt, loan_data := some d } (str "901") =
        ({ state := ConvState.creditSt, loan_data := some d }, none)) ∧
    (∀ (m : Option Classifier) (d : UserData) (s : Str) (t : ℤ), parseInt s = some t →
      (1 ≤ t ∧ t ≤ 30 →
        step m { state := ConvState.termSt, loan_data := some d } s =
          ({ state := ConvState.creditSt,
             loan_data := some { d with loan_term := some (t * 12) } }, none)) ∧
      (¬ (1 ≤ t ∧ t ≤ 30) →
        step m { state := ConvState.termSt, loan_data := some d } s =
          ({ state := ConvState.termSt, loan_data := some d }, none))) ∧
    (∀ (m : Option Classifier) (d : UserData) (s : Str), parseInt s = none →
      step m { state := ConvState.termSt, loan_data := some d } s =
        ({ state := ConvState.termSt, loan_data := some d }, none)) ∧
    (∀ (m : Option Classifier) (d : UserData) (s : Str) (c : ℤ), parseInt s = some c →
      (300 ≤ c ∧ c ≤ 900 →
        step m { state := ConvState.creditSt, loan_data := some d } s =
          ({ state := ConvState.resSt,
             loan_data := some { d with cibil_score := some c } }, none)) ∧
      (¬ (300 ≤ c ∧ c ≤ 900) →
        step m { state := ConvState.creditSt, loan_data := some d } s =
          ({ state := ConvState.creditSt, loan_data := some d }, none))) ∧
    (∀ (m : Option Classifier) (d : UserData) (s : Str), parseInt s = none →
      step m { state := ConvState.creditSt, loan_data := some d } s =
        ({ state := ConvState.creditSt, loan_data := some d }, none)) := by
  refine ⟨fun m d => ⟨rfl, rfl, rfl, rfl⟩, ?_, ?_, ?_, ?_⟩
  · intro m d s t h
    constructor
    · intro ht
      simp only [step, h]
      rw [if_neg (by omega)]
    · intro ht
      simp only [step, h]
      rw [if_pos (by omega)]
  · intro m d s h
    simp only [step, h]
  · intro m d s c h
    constructor
    · intro hc
      simp only [step, h]
      rw [if_neg (by omega)]
    · intro hc
      simp only [step, h]
      rw [if_pos (by omega)]
  · intro m d s h
    simp only [step, h]

/-- C7 witness: tenure "15" is committed (as 180 months) and the state
advances to the credit step. -/
theorem c7_boundary_validation_witness :
    parseInt (str "15") = some 15 ∧ (1 ≤ (15 : ℤ) ∧ (15 : ℤ) ≤ 30) ∧
    step none { state := ConvState.termSt, loan_data := some {} } (str "15") =
      ({ state := ConvState.creditSt,
         loan_data := some { loan_term := some (15 * 12) } }, none) :=
  ⟨rfl, by norm_num,
    (c7_boundary_validation.2.1 none {} (str "15") 15 rfl).1 (by norm_num)⟩

/-- C9: from `Idle`, `/loan` followed by any well-formed sequence of
valid answers to the 11 questions emits exactly one result (the
`predict_eligibility` output on the collected fields) and leaves the
session back in `Idle` with the collected loan fields cleared. -/
theorem c9_completed_form_single_result (model : Option Classifier)
    (edu semp sDep sInc sAmt sTerm sCred sRes sCom sLux sBank : Str)
    (dep : ℤ) (inc amt : ℚ) (term credit : ℤ) (res com lux bank : ℚ)
    (hDep : parseInt sDep = some dep)
    (hInc : parseAmount sInc = some inc)
    (hAmt : parseAmount sAmt = some amt)
    (hTerm : parseInt sTerm = some term) (hTerm1 : 1 ≤ term) (hTerm30 : term ≤ 30)
    (hCred : parseInt sCred = some credit) (hCred1 : 300 ≤ credit) (hCred2 : credit ≤ 900)
    (hRes : parseAmount sRes = some res)
    (hCom : parseAmount sCom = some com)
    (hLux : parseAmount sLux = some lux)
    (hBank : parseAmount sBank = some bank) :
    runSteps model (loan_command idleSession)
        [edu, semp, sDep, sInc, sAmt, sTerm, sCred, sRes, sCom, sLux, sBank] =
      (idleSession,
        [predict_eligibility model
          { no_of_dependents := some dep
            education := some edu
            self_employed := some semp
            income_annum := some inc
            loan_amount := some amt
            loan_term := some (term * 12)
            cibil_score := some credit
            residential_assets_value := some res
            commercial_assets_value := some com
            luxury_assets_value := some lux
            bank_asset_value := some bank }]) := by
  have hT : ¬ (term < 1 ∨ 30 < term) := by omega
  have hC : ¬ (credit < 300 ∨ 900 < credit) := by omega
  simp only [loan_command, runSteps, step, hDep, hInc, hAmt, hTerm, hCred, hRes, hCom,
    hLux, hBank, if_neg hT, if_neg hC, Option.toList]
  rfl

/-- C9 witness: a concrete Scenario-A run with an always-approving
classifier. -/
theorem c9_completed_form_single_result_witness :
    parseInt (str "1") = some 1 ∧ parseAmount (str "1200000") = some 1200000 ∧
    runSteps (some okClassifier) (loan_command idleSession)
        [str "Graduate", str "No", str "1", str "1200000", str "3000000", str "10",
          str "780", str "5000000", str "2000000", str "2800000", str "1000000"] =
      (idleSession,
        [predict_eligibility (some okClassifier)
          { no_of_dependents := some 1
            education := some (str "Graduate")
            self_employed := some (str "No")
            income_annum := some 1200000
            loan_amount := some 3000000
            loan_term := some (10 * 12)
            cibil_score := some 780
            residential_assets_value := some 5000000
            commercial_assets_value := some 2000000
            luxury_assets_value := some 2800000
            bank_asset_value := some 1000000 }]) :=
  ⟨rfl, rfl,
    c9_completed_form_single_result (some okClassifier)
      (str "Graduate") (str "No") (str "1") (str "1200000") (str "3000000") (str "10")
      (str "780") (str "5000000") (str "2000000") (str "2800000") (str "1000000")
      1 1200000 3000000 10 780 5000000 2000000 2800000 1000000
      rfl rfl rfl rfl (by norm_num) (by norm_num) rfl (by norm_num) (by norm_num)
      rfl rfl rfl rfl⟩

end Grahmin
